import Mathlib

/-
Verification of the Azure-Based-Demand-Forecasting dashboard logic.

The JavaScript sources (frontend/src/pages/Forecasts.jsx, MultiRegionDashboard,
components/Header.jsx, utils/alerts.js) are shallowly embedded here.  JS
numbers are modelled as exact rationals; `x.toFixed(2)` followed by `Number`
is modelled by `round2` below, using the half-toward-positive-infinity tie
rule of ECMAScript toFixed and Math.round.  The JS `a || b` fallback on a
possibly-missing or zero number is modelled by `jsOrQ`.
-/

/-- Model of `Number(x.toFixed(2))`: round to two decimal places. -/
def round2 (q : ℚ) : ℚ := (round (q * 100) : ℚ) / 100

/-- Model of the JS fallback `x || d` applied to a possibly-absent number:
`undefined` and `0` are falsy, every other number is truthy. -/
def jsOrQ (x : Option ℚ) (d : ℚ) : ℚ :=
  match x with
  | some v => if v = 0 then d else v
  | none => d

/-- Forecasts.jsx lines 123-128, `getRisk(forecast, capacity)`. -/
def getRisk (forecast capacity : ℚ) : String :=
  let gap := capacity - forecast
  if gap ≥ (1/10) * forecast then "Sufficient"
  else if gap < (-(5/100)) * forecast then "Shortage"
  else "Over / Slight risk"

/-- C1: For every numeric forecast value f and capacity value c given to the
capacity-risk classifier, the returned status is "Sufficient" if
(c − f) ≥ 0.1·f, "Shortage" if (c − f) < −0.05·f, and "Over / Slight risk"
otherwise — refuted: at f = −100, c = −105 the Shortage condition
(c − f) < −0.05·f holds (−5 < 5), yet getRisk returns "Sufficient", because
the code tests the Sufficient condition first and −5 ≥ 0.1·(−100) = −10. -/
theorem C1_risk_counterexample :
    ((-105 : ℚ) - (-100) < (-(5/100)) * (-100)) ∧
      getRisk (-100) (-105) = "Sufficient" ∧
      getRisk (-100) (-105) ≠ "Shortage" := by
  refine ⟨by norm_num, ?_, ?_⟩ <;>
    · unfold getRisk
      norm_num
      try decide

/-- C1 (amended): the classifier tests its clauses in order, so "Sufficient"
takes precedence: the status is "Sufficient" iff (c − f) ≥ 0.1·f, "Shortage"
iff (c − f) < 0.1·f and (c − f) < −0.05·f, and "Over / Slight risk" iff
(c − f) < 0.1·f and (c − f) ≥ −0.05·f; in particular f=100, c=111 yields
"Sufficient", f=100, c=94 yields "Shortage", and f=100, c=100 yields
"Over / Slight risk". -/
theorem C1_risk_classification_amended (f c : ℚ) :
    (getRisk f c = "Sufficient" ↔ c - f ≥ (1/10) * f) ∧
      (getRisk f c = "Shortage" ↔
        (c - f < (1/10) * f ∧ c - f < (-(5/100)) * f)) ∧
      (getRisk f c = "Over / Slight risk" ↔
        (c - f < (1/10) * f ∧ (-(5/100)) * f ≤ c - f)) ∧
      getRisk 100 111 = "Sufficient" ∧
      getRisk 100 94 = "Shortage" ∧
      getRisk 100 100 = "Over / Slight risk" := by
  refine ⟨?_, ?_, ?_, ?_, ?_, ?_⟩
  · unfold getRisk
    dsimp only
    split_ifs with h1 h2
    · exact iff_of_true rfl h1
    · exact iff_of_false (by decide) h1
    · exact iff_of_false (by decide) h1
  · unfold getRisk
    dsimp only
    split_ifs with h1 h2
    · exact iff_of_false (by decide) (fun hc => absurd hc.1 (not_lt.mpr h1))
    · exact iff_of_true rfl ⟨not_le.mp h1, h2⟩
    · exact iff_of_false (by decide) (fun hc => h2 hc.2)
  · unfold getRisk
    dsimp only
    split_ifs with h1 h2
    · exact iff_of_false (by decide) (fun hc => absurd hc.1 (not_lt.mpr h1))
    · exact iff_of_false (by decide) (fun hc => absurd h2 (not_lt.mpr hc.2))
    · exact iff_of_true rfl ⟨not_le.mp h1, not_lt.mp h2⟩
  · unfold getRisk
    norm_num
  · unfold getRisk
    norm_num
  · unfold getRisk
    norm_num

/-- Forecasts.jsx line 95: `cpuForecast = forecastData.slice(0, 7).map(v => Number(Number(v).toFixed(2)))`. -/
def cpuForecastOf (data : List ℚ) : List ℚ := (data.take 7).map round2

/-- Forecasts.jsx line 96: `cpuCurrent = cpuForecast[0] || 0`. -/
def cpuCurrentOf (data : List ℚ) : ℚ := jsOrQ (cpuForecastOf data).head? 0

/-- Forecasts.jsx line 97: `storageCurrent = Number((cpuCurrent * 0.01 * 2.5).toFixed(2))`. -/
def storageCurrentOf (data : List ℚ) : ℚ :=
  round2 (cpuCurrentOf data * (1/100) * (5/2))

/-- Forecasts.jsx line 98: `storageForecast = cpuForecast.map(cpu => Number((cpu * 0.01 * 2.5).toFixed(2)))`. -/
def storageForecastOf (data : List ℚ) : List ℚ :=
  (cpuForecastOf data).map (fun cpu => round2 (cpu * (1/100) * (5/2)))

/-- Forecasts.jsx line 99: `netCurrent = Number((cpuCurrent * 10).toFixed(2))`. -/
def netCurrentOf (data : List ℚ) : ℚ := round2 (cpuCurrentOf data * 10)

/-- Forecasts.jsx line 100: `netForecast = cpuForecast.map(cpu => Number((cpu * 10).toFixed(2)))`. -/
def netForecastOf (data : List ℚ) : List ℚ :=
  (cpuForecastOf data).map (fun cpu => round2 (cpu * 10))

/-- Forecasts.jsx line 103 (storage pie):
`usedPercent = Math.round((storageCurrent / Math.max(0.1, next)) * 100)`
with `next = storageForecast[storageForecast.length - 1] || storageCurrent`. -/
def storageUsedPercentOf (data : List ℚ) : ℤ :=
  let next := jsOrQ (storageForecastOf data).getLast? (storageCurrentOf data)
  round (storageCurrentOf data / max (1/10) next * 100)

/-- Forecasts.jsx line 104 (network pie):
`usedPercent = Math.round((netCurrent / Math.max(1, next)) * 100)`
with `next = netForecast[netForecast.length - 1] || netCurrent`. -/
def netUsedPercentOf (data : List ℚ) : ℤ :=
  let next := jsOrQ (netForecastOf data).getLast? (netCurrentOf data)
  round (netCurrentOf data / max 1 next * 100)

/-- Display record for one metric card (Forecasts.jsx `metrics`); the pie is
kept as its two `value` fields, `[{name Used, value pieUsed}, {name
Remaining, value pieRemaining}]`. -/
structure Metric where
  id : String
  title : String
  unit : String
  current : ℚ
  forecast : List ℚ
  pieUsed : ℚ
  pieRemaining : ℚ
deriving DecidableEq

/-- Forecasts.jsx line 102, the CPU card of the non-empty branch. -/
def cpuMetricOf (data : List ℚ) : Metric :=
  { id := "cpu", title := "CPU Demand", unit := "%",
    current := cpuCurrentOf data, forecast := cpuForecastOf data,
    pieUsed := cpuCurrentOf data,
    pieRemaining := max 0 (100 - cpuCurrentOf data) }

/-- Forecasts.jsx line 103, the storage card of the non-empty branch:
`pie = [{Used, Math.min(100, usedPercent)}, {Remaining, Math.max(0, 100 - usedPercent)}]`. -/
def storageMetricOf (data : List ℚ) : Metric :=
  { id := "storage", title := "Storage Usage", unit := "TB",
    current := storageCurrentOf data, forecast := storageForecastOf data,
    pieUsed := min 100 ((storageUsedPercentOf data : ℤ) : ℚ),
    pieRemaining := max 0 (100 - ((storageUsedPercentOf data : ℤ) : ℚ)) }

/-- Forecasts.jsx line 104, the network card of the non-empty branch. -/
def networkMetricOf (data : List ℚ) : Metric :=
  { id := "network", title := "Network Bandwidth", unit := "Mbps",
    current := netCurrentOf data, forecast := netForecastOf data,
    pieUsed := min 100 ((netUsedPercentOf data : ℤ) : ℚ),
    pieRemaining := max 0 (100 - ((netUsedPercentOf data : ℤ) : ℚ)) }

/-- Forecasts.jsx lines 89-93, the placeholder cards returned when
`!forecastData || forecastData.length === 0`. -/
def fallbackMetric (id title unit : String) : Metric :=
  { id := id, title := title, unit := unit, current := 0,
    forecast := List.replicate 7 0, pieUsed := 0, pieRemaining := 100 }

/-- Forecasts.jsx lines 87-106, the `metrics` memo as a function of the
`forecastData` state (`none` models the initial `null`). -/
def metricsOf (forecastData : Option (List ℚ)) : List Metric :=
  match forecastData with
  | none =>
    [fallbackMetric "cpu" "CPU Demand" "%",
     fallbackMetric "storage" "Storage Usage" "TB",
     fallbackMetric "network" "Network Bandwidth" "Mbps"]
  | some data =>
    if data = [] then
      [fallbackMetric "cpu" "CPU Demand" "%",
       fallbackMetric "storage" "Storage Usage" "TB",
       fallbackMetric "network" "Network Bandwidth" "Mbps"]
    else
      [cpuMetricOf data, storageMetricOf data, networkMetricOf data]

lemma cpuMetricOf_id (d : List ℚ) : (cpuMetricOf d).id = "cpu" := rfl

lemma storageMetricOf_id (d : List ℚ) : (storageMetricOf d).id = "storage" := rfl

lemma networkMetricOf_id (d : List ℚ) : (networkMetricOf d).id = "network" := rfl

lemma cpuMetricOf_forecast (d : List ℚ) :
    (cpuMetricOf d).forecast = cpuForecastOf d := rfl

lemma storageMetricOf_forecast (d : List ℚ) :
    (storageMetricOf d).forecast = storageForecastOf d := rfl

lemma networkMetricOf_forecast (d : List ℚ) :
    (networkMetricOf d).forecast = netForecastOf d := rfl

lemma storageMetricOf_pieUsed (d : List ℚ) :
    (storageMetricOf d).pieUsed = min 100 ((storageUsedPercentOf d : ℤ) : ℚ) := rfl

lemma networkMetricOf_pieUsed (d : List ℚ) :
    (networkMetricOf d).pieUsed = min 100 ((netUsedPercentOf d : ℤ) : ℚ) := rfl

/-- C2: for a forecast sequence of length at least 7, the derived CPU list has
exactly 7 entries, the three metric cards carry exactly the derived CPU,
storage and network lists, and entrywise storage = cpu × 0.025 rounded to two
decimals and network = cpu × 10 rounded to two decimals (the source computes
storage as `cpu * 0.01 * 2.5`, equal to `cpu * 0.025` exactly). -/
theorem C2_metric_scaling (data : List ℚ) (h : 7 ≤ data.length) :
    (cpuForecastOf data).length = 7 ∧
      (metricsOf (some data)).map (fun m => m.forecast) =
        [cpuForecastOf data, storageForecastOf data, netForecastOf data] ∧
      (∀ i : ℕ, (storageForecastOf data)[i]? =
        ((cpuForecastOf data)[i]?).map (fun cpu => round2 (cpu * (25/1000)))) ∧
      (∀ i : ℕ, (netForecastOf data)[i]? =
        ((cpuForecastOf data)[i]?).map (fun cpu => round2 (cpu * 10))) := by
  have hne : data ≠ [] := by
    intro he
    rw [he] at h
    simp at h
  refine ⟨?_, ?_, ?_, ?_⟩
  · simp only [cpuForecastOf, List.length_map, List.length_take]
    omega
  · simp [metricsOf, hne, cpuMetricOf_forecast, storageMetricOf_forecast,
      networkMetricOf_forecast]
  · intro i
    have harg : ∀ c : ℚ, c * (1/100) * (5/2) = c * (25/1000) := fun c => by ring
    simp only [storageForecastOf, List.getElem?_map, harg]
  · intro i
    simp only [netForecastOf, List.getElem?_map]

/-- Witness for C2 at the concrete sequence [10, 20, 30, 40, 50, 60, 70]. -/
theorem C2_metric_scaling_witness :
    7 ≤ ([10, 20, 30, 40, 50, 60, 70] : List ℚ).length ∧
      (storageForecastOf [10, 20, 30, 40, 50, 60, 70])[2]? =
        ((cpuForecastOf [10, 20, 30, 40, 50, 60, 70])[2]?).map
          (fun cpu => round2 (cpu * (25/1000))) :=
  ⟨by simp, (C2_metric_scaling [10, 20, 30, 40, 50, 60, 70] (by simp)).2.2.1 2⟩

lemma round2_nonneg {q : ℚ} (h : 0 ≤ q) : 0 ≤ round2 q := by
  unfold round2
  have hr : (0 : ℤ) ≤ round (q * 100) := by
    rw [round_eq]
    refine Int.le_floor.mpr ?_
    push_cast
    linarith
  have : (0 : ℚ) ≤ ((round (q * 100) : ℤ) : ℚ) := by exact_mod_cast hr
  linarith

lemma round_nonneg_of_nonneg {q : ℚ} (h : 0 ≤ q) : (0 : ℤ) ≤ round q := by
  rw [round_eq]
  refine Int.le_floor.mpr ?_
  push_cast
  linarith

lemma cpuCurrentOf_nonneg {data : List ℚ} (h : ∀ x ∈ data, 0 ≤ x) :
    0 ≤ cpuCurrentOf data := by
  unfold cpuCurrentOf
  rcases hh : (cpuForecastOf data).head? with _ | v
  · simp [jsOrQ]
  · have hv : v ∈ cpuForecastOf data := List.mem_of_mem_head? (by simp [hh])
    have hv0 : 0 ≤ v := by
      rcases List.mem_map.mp hv with ⟨a, ha, rfl⟩
      exact round2_nonneg (h a (List.mem_of_mem_take ha))
    simp only [jsOrQ]
    split_ifs with hz
    · exact le_refl 0
    · exact hv0

lemma storageCurrentOf_nonneg {data : List ℚ} (h : ∀ x ∈ data, 0 ≤ x) :
    0 ≤ storageCurrentOf data := by
  unfold storageCurrentOf
  refine round2_nonneg ?_
  have := cpuCurrentOf_nonneg h
  positivity

lemma netCurrentOf_nonneg {data : List ℚ} (h : ∀ x ∈ data, 0 ≤ x) :
    0 ≤ netCurrentOf data := by
  unfold netCurrentOf
  refine round2_nonneg ?_
  have := cpuCurrentOf_nonneg h
  positivity

lemma storageUsedPercentOf_nonneg {data : List ℚ} (h : ∀ x ∈ data, 0 ≤ x) :
    (0 : ℤ) ≤ storageUsedPercentOf data := by
  unfold storageUsedPercentOf
  refine round_nonneg_of_nonneg ?_
  have hc := storageCurrentOf_nonneg h
  have hd : (0 : ℚ) < max (1/10)
      (jsOrQ (storageForecastOf data).getLast? (storageCurrentOf data)) :=
    lt_of_lt_of_le (by norm_num) (le_max_left _ _)
  positivity

lemma netUsedPercentOf_nonneg {data : List ℚ} (h : ∀ x ∈ data, 0 ≤ x) :
    (0 : ℤ) ≤ netUsedPercentOf data := by
  unfold netUsedPercentOf
  refine round_nonneg_of_nonneg ?_
  have hc := netCurrentOf_nonneg h
  have hd : (0 : ℚ) < max 1
      (jsOrQ (netForecastOf data).getLast? (netCurrentOf data)) :=
    lt_of_lt_of_le (by norm_num) (le_max_left _ _)
  positivity

/-- C4: the "Used" pie share equals current ÷ last-forecast as a percentage
clamped to [0, 100] — refuted: the code clamps only from above with
`Math.min(100, usedPercent)`, so for the all-negative forecast sequence
[-100, ..., -100] the displayed storage "Used" share is -2500, outside
[0, 100]. -/
theorem C4_pie_counterexample :
    ((metricsOf (some [-100, -100, -100, -100, -100, -100, -100])).find?
        (fun m => m.id == "storage")).map (fun m => m.pieUsed) =
      some (-2500) ∧ ((-2500 : ℚ) < 0) := by
  have h100 : round2 (-100 : ℚ) = -100 := by norm_num [round2, round_eq]
  have hs : round2 ((-100 : ℚ) * (1/100) * (5/2)) = -5/2 := by
    norm_num [round2, round_eq]
  have hcf : cpuForecastOf [-100, -100, -100, -100, -100, -100, -100] =
      [round2 (-100), round2 (-100), round2 (-100), round2 (-100),
        round2 (-100), round2 (-100), round2 (-100)] := rfl
  have hsf : storageForecastOf [-100, -100, -100, -100, -100, -100, -100] =
      [-5/2, -5/2, -5/2, -5/2, -5/2, -5/2, -5/2] := by
    rw [storageForecastOf, hcf, h100]
    norm_num [round2, round_eq]
  have hsc : storageCurrentOf [-100, -100, -100, -100, -100, -100, -100] =
      -5/2 := by
    rw [storageCurrentOf, cpuCurrentOf, hcf, h100]
    simp only [List.head?_cons, jsOrQ]
    norm_num [round2, round_eq]
  have hup : storageUsedPercentOf [-100, -100, -100, -100, -100, -100, -100] =
      -2500 := by
    rw [storageUsedPercentOf, hsf, hsc]
    simp only [List.getLast?_cons_cons, List.getLast?_singleton, jsOrQ]
    norm_num [round_eq]
  constructor
  · simp only [metricsOf]
    rw [if_neg (by simp)]
    simp [List.find?, cpuMetricOf_id, storageMetricOf_id,
      storageMetricOf_pieUsed, hup]
    norm_num
  · norm_num

/-- C4 (amended): for every forecast sequence, the storage and network "Used"
pie shares equal min(100, Math.round(current ÷ max(floor, last) × 100)) where
the denominator floor is 0.1 for storage and 1 for network and last falls back
to the current value when the final forecast entry is 0 or missing; the share
never exceeds 100, and it lies in [0, 100] whenever every forecast input is
non-negative (for negative inputs it can drop below 0). -/
theorem C4_pie_amended :
    (∀ data : List ℚ, ∀ m ∈ metricsOf (some data),
        m.id = "storage" ∨ m.id = "network" → m.pieUsed ≤ 100) ∧
      (∀ data : List ℚ, (∀ x ∈ data, 0 ≤ x) → ∀ m ∈ metricsOf (some data),
        m.id = "storage" ∨ m.id = "network" →
          0 ≤ m.pieUsed ∧ m.pieUsed ≤ 100) ∧
      (∀ data : List ℚ, data ≠ [] →
        ((metricsOf (some data)).find? (fun m => m.id == "storage")).map
            (fun m => m.pieUsed) =
          some (min 100 ((storageUsedPercentOf data : ℤ) : ℚ)) ∧
        ((metricsOf (some data)).find? (fun m => m.id == "network")).map
            (fun m => m.pieUsed) =
          some (min 100 ((netUsedPercentOf data : ℤ) : ℚ))) := by
  refine ⟨?_, ?_, ?_⟩
  · intro data m hm hid
    by_cases hd : data = []
    · simp [metricsOf, hd, fallbackMetric] at hm
      rcases hm with rfl | rfl | rfl <;> simp [fallbackMetric]
    · simp [metricsOf, hd] at hm
      rcases hm with rfl | rfl | rfl
      · rcases hid with hid | hid <;> simp [cpuMetricOf] at hid
      · rw [storageMetricOf_pieUsed]
        exact min_le_left _ _
      · rw [networkMetricOf_pieUsed]
        exact min_le_left _ _
  · intro data hnn m hm hid
    by_cases hd : data = []
    · simp [metricsOf, hd, fallbackMetric] at hm
      rcases hm with rfl | rfl | rfl <;> constructor <;> simp
    · simp [metricsOf, hd] at hm
      rcases hm with rfl | rfl | rfl
      · rcases hid with hid | hid <;> simp [cpuMetricOf] at hid
      · rw [storageMetricOf_pieUsed]
        refine ⟨le_min (by norm_num) ?_, min_le_left _ _⟩
        exact_mod_cast storageUsedPercentOf_nonneg hnn
      · rw [networkMetricOf_pieUsed]
        refine ⟨le_min (by norm_num) ?_, min_le_left _ _⟩
        exact_mod_cast netUsedPercentOf_nonneg hnn
  · intro data hd
    constructor
    · simp only [metricsOf]
      rw [if_neg hd]
      simp [List.find?, cpuMetricOf_id, storageMetricOf_id,
        storageMetricOf_pieUsed]
    · simp only [metricsOf]
      rw [if_neg hd]
      simp [List.find?, cpuMetricOf_id, storageMetricOf_id,
        networkMetricOf_id, networkMetricOf_pieUsed]

/-- Witness for the amended C4 at the concrete all-ones sequence. -/
theorem C4_pie_amended_witness :
    0 ≤ (storageMetricOf [1, 1, 1, 1, 1, 1, 1]).pieUsed ∧
      (storageMetricOf [1, 1, 1, 1, 1, 1, 1]).pieUsed ≤ 100 :=
  C4_pie_amended.2.1 [1, 1, 1, 1, 1, 1, 1]
    (by intro x hx; simp at hx; subst hx; norm_num)
    (storageMetricOf [1, 1, 1, 1, 1, 1, 1])
    (by simp [metricsOf])
    (Or.inl rfl)

/-- Shape of the capacity-planning fetch response (Forecasts.jsx lines 75-76,
spec section 6); fields are optional since the code guards them with `||`. -/
structure CapacityResponse where
  capacity : Option ℚ
  avg_forecast : Option ℚ
deriving DecidableEq

/-- One literal row of `generateCapacityData` (Forecasts.jsx lines 45-53),
before the fallback decoration adds gap, status and band. -/
structure RawCapacityRow where
  date : String
  forecast : ℚ
  capacity : ℚ
  lower : ℚ
  upper : ℚ
deriving DecidableEq

/-- Forecasts.jsx lines 45-53: `generateCapacityData()` with `base = 120`. -/
def generateCapacityData : List RawCapacityRow :=
  let base : ℚ := 120
  [{ date := "Week 1", forecast := base, capacity := base + 35,
     lower := base - 20, upper := base + 15 },
   { date := "Week 2", forecast := base + 15, capacity := base + 20,
     lower := base - 10, upper := base + 25 },
   { date := "Week 3", forecast := base + 30, capacity := base + 30,
     lower := base, upper := base + 35 },
   { date := "Week 4", forecast := base + 50, capacity := base + 45,
     lower := base + 10, upper := base + 45 }]

/-- One row of the `capacityRows` memo (Forecasts.jsx lines 130-143). -/
structure CapacityRow where
  date : String
  forecast : ℚ
  capacity : ℚ
  lower : ℚ
  upper : ℚ
  band : ℚ
  gap : ℚ
  status : String
deriving DecidableEq

/-- Forecasts.jsx line 133, the fallback decoration
`{...d, gap: d.capacity - d.forecast, status: getRisk(d.forecast, d.capacity),
band: Math.round(d.forecast * 0.3)}`. -/
def decorateFallbackRow (d : RawCapacityRow) : CapacityRow :=
  { date := d.date, forecast := d.forecast, capacity := d.capacity,
    lower := d.lower, upper := d.upper,
    gap := d.capacity - d.forecast,
    status := getRisk d.forecast d.capacity,
    band := ((round (d.forecast * (3/10)) : ℤ) : ℚ) }

/-- Forecasts.jsx lines 138-142, the body of `weeks.map((week, idx) => ...)`:
`forecast = forecastData[idx] || avgForecast`, `weekCapacity = capacity +
idx * 100`, and the row with every displayed number re-rounded to 2 decimals. -/
def mkCapacityRow (capacity avgForecast : ℚ) (fd : List ℚ) (idx : ℕ)
    (week : String) : CapacityRow :=
  let forecast := jsOrQ fd[idx]? avgForecast
  let weekCapacity := capacity + (idx : ℚ) * 100
  { date := week, forecast := round2 forecast, capacity := weekCapacity,
    lower := round2 (forecast * (85/100)), upper := round2 (forecast * (115/100)),
    band := round2 (forecast * (3/10)),
    gap := round2 (weekCapacity - forecast),
    status := getRisk forecast weekCapacity }

/-- Forecasts.jsx lines 130-143, the `capacityRows` memo: the fallback path
when either state is still `null`, else the four-week fetched path with
`capacity = capacityData.capacity || 10000` and `avgForecast =
capacityData.avg_forecast || 0` (the `weeks.map` over the four literal week
labels is unrolled). -/
def capacityRowsOf (capacityData : Option CapacityResponse)
    (forecastData : Option (List ℚ)) : List CapacityRow :=
  match capacityData, forecastData with
  | some cd, some fd =>
    let capacity := jsOrQ cd.capacity 10000
    let avgForecast := jsOrQ cd.avg_forecast 0
    [mkCapacityRow capacity avgForecast fd 0 "Week 1",
     mkCapacityRow capacity avgForecast fd 1 "Week 2",
     mkCapacityRow capacity avgForecast fd 2 "Week 3",
     mkCapacityRow capacity avgForecast fd 3 "Week 4"]
  | _, _ => generateCapacityData.map decorateFallbackRow

lemma mkCapacityRow_date (c a : ℚ) (fd : List ℚ) (i : ℕ) (w : String) :
    (mkCapacityRow c a fd i w).date = w := rfl

lemma mkCapacityRow_capacity (c a : ℚ) (fd : List ℚ) (i : ℕ) (w : String) :
    (mkCapacityRow c a fd i w).capacity = c + (i : ℚ) * 100 := rfl

lemma mkCapacityRow_gap (c a : ℚ) (fd : List ℚ) (i : ℕ) (w : String) :
    (mkCapacityRow c a fd i w).gap =
      round2 ((c + (i : ℚ) * 100) - jsOrQ fd[i]? a) := rfl

/-- C9: in every reachable state the capacity table has exactly the four rows
"Week 1" .. "Week 4"; in the fallback path each gap equals capacity minus
forecast exactly, and in the fetched path each gap equals the row capacity
minus the forecast value used for that row (`forecastData[idx] ||
avg_forecast`), rounded to two decimals. -/
theorem C9_capacity_rows_shape :
    (∀ (cd : Option CapacityResponse) (fd : Option (List ℚ)),
      (capacityRowsOf cd fd).map (fun r => r.date) =
        ["Week 1", "Week 2", "Week 3", "Week 4"]) ∧
      (∀ (cd : Option CapacityResponse) (fd : Option (List ℚ)),
        cd = none ∨ fd = none →
        ∀ r ∈ capacityRowsOf cd fd, r.gap = r.capacity - r.forecast) ∧
      (∀ (c : CapacityResponse) (f : List ℚ) (idx : ℕ) (r : CapacityRow),
        (capacityRowsOf (some c) (some f))[idx]? = some r →
        r.gap = round2 (r.capacity - jsOrQ f[idx]? (jsOrQ c.avg_forecast 0))) := by
  refine ⟨?_, ?_, ?_⟩
  · intro cd fd
    match cd, fd with
    | some cd, some fd =>
      simp [capacityRowsOf, mkCapacityRow_date]
    | some cd, none => rfl
    | none, some fd => rfl
    | none, none => rfl
  · intro cd fd hnone r hr
    have hfall : capacityRowsOf cd fd = generateCapacityData.map decorateFallbackRow := by
      rcases hnone with rfl | rfl
      · rfl
      · match cd with
        | some cd => rfl
        | none => rfl
    rw [hfall] at hr
    rcases List.mem_map.mp hr with ⟨d, _, rfl⟩
    rfl
  · intro c f idx r hr
    simp only [capacityRowsOf] at hr
    match idx, hr with
    | 0, hr =>
      cases hr
      simp [mkCapacityRow_gap, mkCapacityRow_capacity]
    | 1, hr =>
      cases hr
      simp [mkCapacityRow_gap, mkCapacityRow_capacity]
    | 2, hr =>
      cases hr
      simp [mkCapacityRow_gap, mkCapacityRow_capacity]
    | 3, hr =>
      cases hr
      simp [mkCapacityRow_gap, mkCapacityRow_capacity]
    | (n+4), hr => simp at hr

/-- Witness for C9 at a concrete fetched state and a concrete fallback state. -/
theorem C9_capacity_rows_shape_witness :
    ((capacityRowsOf none none).map (fun r => r.date) =
      ["Week 1", "Week 2", "Week 3", "Week 4"]) ∧
      (decorateFallbackRow (RawCapacityRow.mk "Week 1" 120 155 100 135)).gap =
        (decorateFallbackRow (RawCapacityRow.mk "Week 1" 120 155 100 135)).capacity -
        (decorateFallbackRow (RawCapacityRow.mk "Week 1" 120 155 100 135)).forecast ∧
      (mkCapacityRow 10000 0 [100, 200, 300, 400] 0 "Week 1").gap =
        round2 ((mkCapacityRow 10000 0 [100, 200, 300, 400] 0 "Week 1").capacity -
          jsOrQ ([100, 200, 300, 400] : List ℚ)[0]?
            (jsOrQ (CapacityResponse.mk (some 10000) (some 0)).avg_forecast 0)) := by
  refine ⟨C9_capacity_rows_shape.1 none none, ?_, ?_⟩
  · exact C9_capacity_rows_shape.2.1 none none (Or.inl rfl)
      (decorateFallbackRow (RawCapacityRow.mk "Week 1" 120 155 100 135))
      (by simp [capacityRowsOf, generateCapacityData]
          left
          norm_num)
  · have h := C9_capacity_rows_shape.2.2 (CapacityResponse.mk (some 10000) (some 0))
      [100, 200, 300, 400] 0
      (mkCapacityRow (jsOrQ (some (10000 : ℚ)) 10000)
        (jsOrQ (some (0 : ℚ)) 0) [100, 200, 300, 400] 0 "Week 1")
      (by simp [capacityRowsOf])
    simpa [jsOrQ] using h

/-- Shape of the what-if fetch response (Forecasts.jsx lines 198-199, 204-207;
spec section 6); every series is optional and may be empty. -/
structure WhatIfBackend where
  base_cpu : Option (List ℚ)
  simulated_cpu : Option (List ℚ)
  base_storage : Option (List ℚ)
  simulated_storage : Option (List ℚ)
deriving DecidableEq

/-- The record built by the `whatIfResults` memo (Forecasts.jsx line 200). -/
structure WhatIfResult where
  baseCpu : ℚ
  baseStorage : ℚ
  simulatedCpu : ℚ
  simulatedStorage : ℚ
deriving DecidableEq

/-- Forecasts.jsx lines 188-201, the `whatIfResults` memo: `null` when the cpu
or storage card is missing; the backend series last element (`?.[length-1]`,
`undefined` on an absent or empty series) is preferred via `??` over the local
`base * (1 + delta/100)` computation rounded to two decimals. -/
def whatIfResults (ms : List Metric) (workloadDelta trafficDelta : ℚ)
    (whatIfBackend : Option WhatIfBackend) : Option WhatIfResult :=
  match ms.find? (fun m => m.id == "cpu"), ms.find? (fun m => m.id == "storage") with
  | some cpuMetric, some storageMetric =>
    let baseCpu := (cpuMetric.forecast.getLast?).getD cpuMetric.current
    let baseStorage := (storageMetric.forecast.getLast?).getD storageMetric.current
    let cpuFactor := 1 + workloadDelta / 100
    let storageFactor := 1 + trafficDelta / 100
    let simulatedCpu := round2 (baseCpu * cpuFactor)
    let simulatedStorage := round2 (baseStorage * storageFactor)
    let beSimCpu := (whatIfBackend.bind (fun w => w.simulated_cpu)).bind
      (fun l => l.getLast?)
    let beSimStorage := (whatIfBackend.bind (fun w => w.simulated_storage)).bind
      (fun l => l.getLast?)
    some { baseCpu := baseCpu, baseStorage := baseStorage,
           simulatedCpu := beSimCpu.getD simulatedCpu,
           simulatedStorage := beSimStorage.getD simulatedStorage }
  | _, _ => none

/-- Forecasts.jsx line 192: the cpu baseline
`cpuMetric.forecast?.[cpuMetric.forecast.length - 1] ?? cpuMetric.current`. -/
def cpuBaseOf (ms : List Metric) : Option ℚ :=
  (ms.find? (fun m => m.id == "cpu")).map
    (fun m => (m.forecast.getLast?).getD m.current)

/-- Forecasts.jsx line 193: the storage baseline. -/
def storageBaseOf (ms : List Metric) : Option ℚ :=
  (ms.find? (fun m => m.id == "storage")).map
    (fun m => (m.forecast.getLast?).getD m.current)

lemma metricsOf_find_cpu (fd : Option (List ℚ)) :
    ∃ mc, (metricsOf fd).find? (fun m => m.id == "cpu") = some mc := by
  match fd with
  | none => exact ⟨_, rfl⟩
  | some d =>
    by_cases hd : d = []
    · subst hd
      exact ⟨_, rfl⟩
    · refine ⟨cpuMetricOf d, ?_⟩
      simp only [metricsOf]
      rw [if_neg hd]
      rfl

lemma metricsOf_find_storage (fd : Option (List ℚ)) :
    ∃ ms, (metricsOf fd).find? (fun m => m.id == "storage") = some ms := by
  match fd with
  | none => exact ⟨_, rfl⟩
  | some d =>
    by_cases hd : d = []
    · subst hd
      exact ⟨_, rfl⟩
    · refine ⟨storageMetricOf d, ?_⟩
      simp only [metricsOf]
      rw [if_neg hd]
      rfl

lemma whatIfResults_eq (ms : List Metric) (mc msto : Metric)
    (hc : ms.find? (fun m => m.id == "cpu") = some mc)
    (hs : ms.find? (fun m => m.id == "storage") = some msto)
    (wd td : ℚ) (b : Option WhatIfBackend) :
    whatIfResults ms wd td b = some
      { baseCpu := (mc.forecast.getLast?).getD mc.current,
        baseStorage := (msto.forecast.getLast?).getD msto.current,
        simulatedCpu :=
          ((b.bind (fun w => w.simulated_cpu)).bind (fun l => l.getLast?)).getD
            (round2 (((mc.forecast.getLast?).getD mc.current) * (1 + wd / 100))),
        simulatedStorage :=
          ((b.bind (fun w => w.simulated_storage)).bind (fun l => l.getLast?)).getD
            (round2 (((msto.forecast.getLast?).getD msto.current) * (1 + td / 100))) } := by
  unfold whatIfResults
  rw [hc, hs]

/-- C3: with no backend override, the simulated value is the baseline (last
cpu/storage forecast entry) scaled by 1 + delta/100 and rounded to two
decimals, for cpu with the workload delta and storage with the traffic delta
independently; at base 50 and delta +20 the simulated value is 60.00 (cpu
baseline 50, and storage baseline 50 arising from cpu 2000). -/
theorem C3_whatif_local :
    (∀ (fd : Option (List ℚ)) (wd td : ℚ),
      (whatIfResults (metricsOf fd) wd td none).map (fun r => r.simulatedCpu) =
        (cpuBaseOf (metricsOf fd)).map (fun base => round2 (base * (1 + wd / 100)))) ∧
      (∀ (fd : Option (List ℚ)) (wd td : ℚ),
        (whatIfResults (metricsOf fd) wd td none).map (fun r => r.simulatedStorage) =
          (storageBaseOf (metricsOf fd)).map
            (fun base => round2 (base * (1 + td / 100)))) ∧
      (whatIfResults (metricsOf (some [50, 50, 50, 50, 50, 50, 50])) 20 0 none).map
          (fun r => r.simulatedCpu) = some 60 ∧
      (whatIfResults (metricsOf (some [2000, 2000, 2000, 2000, 2000, 2000, 2000]))
          0 20 none).map (fun r => r.simulatedStorage) = some 60 := by
  have key : ∀ (fd : Option (List ℚ)) (wd td : ℚ),
      (whatIfResults (metricsOf fd) wd td none).map (fun r => r.simulatedCpu) =
        (cpuBaseOf (metricsOf fd)).map (fun base => round2 (base * (1 + wd / 100))) := by
    intro fd wd td
    obtain ⟨mc, hc⟩ := metricsOf_find_cpu fd
    obtain ⟨msto, hs⟩ := metricsOf_find_storage fd
    rw [whatIfResults_eq (metricsOf fd) mc msto hc hs wd td none, cpuBaseOf, hc]
    simp
  have key2 : ∀ (fd : Option (List ℚ)) (wd td : ℚ),
      (whatIfResults (metricsOf fd) wd td none).map (fun r => r.simulatedStorage) =
        (storageBaseOf (metricsOf fd)).map
          (fun base => round2 (base * (1 + td / 100))) := by
    intro fd wd td
    obtain ⟨mc, hc⟩ := metricsOf_find_cpu fd
    obtain ⟨msto, hs⟩ := metricsOf_find_storage fd
    rw [whatIfResults_eq (metricsOf fd) mc msto hc hs wd td none, storageBaseOf, hs]
    simp
  refine ⟨key, key2, ?_, ?_⟩
  · rw [key (some [50, 50, 50, 50, 50, 50, 50]) 20 0]
    have h50 : round2 (50 : ℚ) = 50 := by norm_num [round2, round_eq]
    have hfind : (metricsOf (some [50, 50, 50, 50, 50, 50, 50])).find?
        (fun m => m.id == "cpu") =
        some (cpuMetricOf [50, 50, 50, 50, 50, 50, 50]) := rfl
    have hcf : cpuForecastOf [50, 50, 50, 50, 50, 50, 50] =
        [round2 50, round2 50, round2 50, round2 50, round2 50, round2 50,
          round2 50] := rfl
    rw [cpuBaseOf, hfind, Option.map_some', cpuMetricOf_forecast, hcf, h50]
    simp only [List.getLast?_cons_cons, List.getLast?_singleton, Option.getD_some]
    norm_num [round2, round_eq]
  · rw [key2 (some [2000, 2000, 2000, 2000, 2000, 2000, 2000]) 0 20]
    have h2000 : round2 (2000 : ℚ) = 2000 := by norm_num [round2, round_eq]
    have hval : round2 ((2000 : ℚ) * (1/100) * (5/2)) = 50 := by
      norm_num [round2, round_eq]
    have hfind : (metricsOf (some [2000, 2000, 2000, 2000, 2000, 2000, 2000])).find?
        (fun m => m.id == "storage") =
        some (storageMetricOf [2000, 2000, 2000, 2000, 2000, 2000, 2000]) := rfl
    have hcf : cpuForecastOf [2000, 2000, 2000, 2000, 2000, 2000, 2000] =
        [round2 2000, round2 2000, round2 2000, round2 2000, round2 2000,
          round2 2000, round2 2000] := rfl
    have hsf : storageForecastOf [2000, 2000, 2000, 2000, 2000, 2000, 2000] =
        [50, 50, 50, 50, 50, 50, 50] := by
      rw [storageForecastOf, hcf, h2000]
      simp only [List.map_cons, List.map_nil, hval]
    rw [storageBaseOf, hfind, Option.map_some', storageMetricOf_forecast, hsf]
    simp only [List.getLast?_cons_cons, List.getLast?_singleton, Option.getD_some]
    norm_num [round2, round_eq]

/-- C5: whenever the backend what-if response has a non-empty simulated_cpu
(resp. simulated_storage) series, the displayed simulated value is the last
element of that series and the local computation is not used; whenever that
series is absent — no backend response at all, a response without the field,
or an empty series — the local base × (1 + delta/100) computation (rounded to
two decimals) is used for that metric, independently per metric. -/
theorem C5_backend_override :
    (∀ (fd : Option (List ℚ)) (wd td : ℚ) (b : WhatIfBackend)
        (l : List ℚ) (x : ℚ),
      b.simulated_cpu = some l → l.getLast? = some x →
      (whatIfResults (metricsOf fd) wd td (some b)).map
        (fun r => r.simulatedCpu) = some x) ∧
      (∀ (fd : Option (List ℚ)) (wd td : ℚ) (b : WhatIfBackend)
          (l : List ℚ) (x : ℚ),
        b.simulated_storage = some l → l.getLast? = some x →
        (whatIfResults (metricsOf fd) wd td (some b)).map
          (fun r => r.simulatedStorage) = some x) ∧
      (∀ (fd : Option (List ℚ)) (wd td : ℚ) (b : Option WhatIfBackend),
        (b = none ∨ b.bind (fun w => w.simulated_cpu) = none ∨
          b.bind (fun w => w.simulated_cpu) = some ([] : List ℚ)) →
        (whatIfResults (metricsOf fd) wd td b).map
            (fun r => r.simulatedCpu) =
          (cpuBaseOf (metricsOf fd)).map
            (fun base => round2 (base * (1 + wd / 100)))) ∧
      (∀ (fd : Option (List ℚ)) (wd td : ℚ) (b : Option WhatIfBackend),
        (b = none ∨ b.bind (fun w => w.simulated_storage) = none ∨
          b.bind (fun w => w.simulated_storage) = some ([] : List ℚ)) →
        (whatIfResults (metricsOf fd) wd td b).map
            (fun r => r.simulatedStorage) =
          (storageBaseOf (metricsOf fd)).map
            (fun base => round2 (base * (1 + td / 100)))) := by
  refine ⟨?_, ?_, ?_, ?_⟩
  · intro fd wd td b l x hb hl
    obtain ⟨mc, hc⟩ := metricsOf_find_cpu fd
    obtain ⟨msto, hs⟩ := metricsOf_find_storage fd
    rw [whatIfResults_eq (metricsOf fd) mc msto hc hs wd td (some b)]
    simp [hb, hl]
  · intro fd wd td b l x hb hl
    obtain ⟨mc, hc⟩ := metricsOf_find_cpu fd
    obtain ⟨msto, hs⟩ := metricsOf_find_storage fd
    rw [whatIfResults_eq (metricsOf fd) mc msto hc hs wd td (some b)]
    simp [hb, hl]
  · intro fd wd td b habs
    obtain ⟨mc, hc⟩ := metricsOf_find_cpu fd
    obtain ⟨msto, hs⟩ := metricsOf_find_storage fd
    have hnone : (b.bind (fun w => w.simulated_cpu)).bind
        (fun l => l.getLast?) = none := by
      rcases habs with rfl | h | h
      · rfl
      · rw [h]
        rfl
      · rw [h]
        rfl
    rw [whatIfResults_eq (metricsOf fd) mc msto hc hs wd td b, cpuBaseOf, hc,
      hnone]
    simp
  · intro fd wd td b habs
    obtain ⟨mc, hc⟩ := metricsOf_find_cpu fd
    obtain ⟨msto, hs⟩ := metricsOf_find_storage fd
    have hnone : (b.bind (fun w => w.simulated_storage)).bind
        (fun l => l.getLast?) = none := by
      rcases habs with rfl | h | h
      · rfl
      · rw [h]
        rfl
      · rw [h]
        rfl
    rw [whatIfResults_eq (metricsOf fd) mc msto hc hs wd td b, storageBaseOf,
      hs, hnone]
    simp

/-- Witness for C5: one backend whose cpu series ends in 95 overrides the cpu
value; a backend carrying only a storage series overrides storage to 4 while
its missing cpu series makes cpu fall back to the local computation (the
mixed case); an empty cpu series also falls back; and with no backend
response at all the storage value is the local computation. -/
theorem C5_backend_override_witness :
    (WhatIfBackend.mk none (some [90, 95]) none (some [3, 4])).simulated_cpu =
        some [90, 95] ∧
      ([90, 95] : List ℚ).getLast? = some 95 ∧
      (whatIfResults (metricsOf (some [50, 50, 50, 50, 50, 50, 50])) 20 10
          (some (WhatIfBackend.mk none (some [90, 95]) none (some [3, 4])))).map
        (fun r => r.simulatedCpu) = some 95 ∧
      (whatIfResults (metricsOf (some [50, 50, 50, 50, 50, 50, 50])) 20 10
          (some (WhatIfBackend.mk none none none (some [3, 4])))).map
        (fun r => r.simulatedStorage) = some 4 ∧
      (whatIfResults (metricsOf (some [50, 50, 50, 50, 50, 50, 50])) 20 10
          (some (WhatIfBackend.mk none none none (some [3, 4])))).map
        (fun r => r.simulatedCpu) =
        (cpuBaseOf (metricsOf (some [50, 50, 50, 50, 50, 50, 50]))).map
          (fun base => round2 (base * (1 + (20 : ℚ) / 100))) ∧
      (whatIfResults (metricsOf (some [50, 50, 50, 50, 50, 50, 50])) 20 10
          (some (WhatIfBackend.mk none (some []) none none))).map
        (fun r => r.simulatedCpu) =
        (cpuBaseOf (metricsOf (some [50, 50, 50, 50, 50, 50, 50]))).map
          (fun base => round2 (base * (1 + (20 : ℚ) / 100))) ∧
      (whatIfResults (metricsOf (some [50, 50, 50, 50, 50, 50, 50])) 20 10
          none).map (fun r => r.simulatedStorage) =
        (storageBaseOf (metricsOf (some [50, 50, 50, 50, 50, 50, 50]))).map
          (fun base => round2 (base * (1 + (10 : ℚ) / 100))) :=
  ⟨rfl, by simp,
    C5_backend_override.1 (some [50, 50, 50, 50, 50, 50, 50]) 20 10
      (WhatIfBackend.mk none (some [90, 95]) none (some [3, 4]))
      [90, 95] 95 rfl (by simp),
    C5_backend_override.2.1 (some [50, 50, 50, 50, 50, 50, 50]) 20 10
      (WhatIfBackend.mk none none none (some [3, 4]))
      [3, 4] 4 rfl (by simp),
    C5_backend_override.2.2.1 (some [50, 50, 50, 50, 50, 50, 50]) 20 10
      (some (WhatIfBackend.mk none none none (some [3, 4])))
      (Or.inr (Or.inl rfl)),
    C5_backend_override.2.2.1 (some [50, 50, 50, 50, 50, 50, 50]) 20 10
      (some (WhatIfBackend.mk none (some []) none none))
      (Or.inr (Or.inr rfl)),
    C5_backend_override.2.2.2 (some [50, 50, 50, 50, 50, 50, 50]) 20 10
      none (Or.inl rfl)⟩

/-- MultiRegionDashboard lines 587-593, `handleToggleRegion(name)`:
`prev.includes(name) ? prev.filter(r => r !== name) : [...prev, name]`. -/
def handleToggleRegion (prev : List String) (name : String) : List String :=
  if name ∈ prev then prev.filter (fun r => r != name) else prev ++ [name]

/-- C6: toggling a region twice returns a selection equal to the original
selected set — the membership of every region name is restored (as a list the
toggled name can move to the end and duplicates of it collapse, but the
selected set is unchanged). -/
theorem C6_toggle_involution (s : List String) (n x : String) :
    (x ∈ handleToggleRegion (handleToggleRegion s n) n) ↔ x ∈ s := by
  by_cases hn : n ∈ s
  · have h1 : handleToggleRegion s n = s.filter (fun r => r != n) := if_pos hn
    have h2 : n ∉ s.filter (fun r => r != n) := by
      simp [List.mem_filter]
    rw [h1, handleToggleRegion, if_neg h2, List.mem_append, List.mem_filter]
    by_cases hx : x = n
    · subst hx
      simp [hn]
    · simp [hx]
  · have h1 : handleToggleRegion s n = s ++ [n] := if_neg hn
    have h2 : n ∈ s ++ [n] := by simp
    rw [h1, handleToggleRegion, if_pos h2, List.mem_filter, List.mem_append]
    by_cases hx : x = n
    · subst hx
      simp [hn]
    · simp [hx]

/-- Alert record passed to `showHighRiskAlert` (utils/alerts.js lines 3-11):
the toast formats `resource`, `usage` and `threshold` into one message. -/
structure AlertCall where
  resource : String
  usage : ℚ
  threshold : ℚ
deriving DecidableEq

/-- Forecasts.jsx lines 237-250, the alerting effect: the Week 4 capacity row
fires one toast when its status is "Shortage", and the cpu card fires one
toast when its last forecast entry exceeds 80; the fired calls in order. -/
def highRiskAlerts (capacityRows : List CapacityRow) (ms : List Metric) :
    List AlertCall :=
  let week4Alerts :=
    match capacityRows.find? (fun r => r.date == "Week 4") with
    | some week4 =>
      if week4.status = "Shortage" then
        [{ resource := "Capacity (Week 4)", usage := week4.forecast,
           threshold := week4.capacity }]
      else []
    | none => []
  let cpuAlerts :=
    match ms.find? (fun m => m.id == "cpu") with
    | some cpuMetric =>
      match cpuMetric.forecast.getLast? with
      | some nextWeekCpu =>
        if nextWeekCpu > 80 then
          [{ resource := "CPU (next week)", usage := nextWeekCpu,
             threshold := 80 }]
        else []
      | none => []
    | none => []
  week4Alerts ++ cpuAlerts

/-- Forecasts.jsx line 244: the last entry of the cpu card forecast. -/
def cpuLastOf (ms : List Metric) : Option ℚ :=
  (ms.find? (fun m => m.id == "cpu")).bind (fun m => m.forecast.getLast?)

lemma highRiskAlerts_length (rows : List CapacityRow) (ms : List Metric) :
    (highRiskAlerts rows ms).length =
      ((if (rows.find? (fun r => r.date == "Week 4")).any
            (fun r => r.status == "Shortage") then 1 else 0) +
        (if (cpuLastOf ms).any (fun v => decide (80 < v)) then 1 else 0)) := by
  unfold highRiskAlerts cpuLastOf
  rcases hw : rows.find? (fun r => r.date == "Week 4") with _ | w4
  · rcases hc : ms.find? (fun m => m.id == "cpu") with _ | mc
    · simp [hw, hc]
    · rcases hl : mc.forecast.getLast? with _ | v
      · simp [hw, hc, hl]
      · simp only [hw, hc, hl, Option.bind_some, Option.any_some,
          Option.any_none]
        split_ifs with h1 h2 <;> simp_all <;> linarith
  · rcases hc : ms.find? (fun m => m.id == "cpu") with _ | mc
    · simp only [hw, hc, Option.bind_none, Option.any_none, Option.any_some]
      split_ifs with h1 h2 <;> simp_all
    · rcases hl : mc.forecast.getLast? with _ | v
      · simp only [hw, hc, hl, Option.bind_some, Option.any_none,
          Option.any_some]
        split_ifs with h1 h2 <;> simp_all
      · simp only [hw, hc, hl, Option.bind_some, Option.any_some]
        split_ifs with h1 h2 h3 h4 <;> simp_all <;> linarith

lemma highRiskAlerts_ne_nil_iff (rows : List CapacityRow) (ms : List Metric) :
    highRiskAlerts rows ms ≠ [] ↔
      ((rows.find? (fun r => r.date == "Week 4")).any
          (fun r => r.status == "Shortage") = true ∨
        (cpuLastOf ms).any (fun v => decide (80 < v)) = true) := by
  rw [Ne, ← List.length_eq_zero, highRiskAlerts_length]
  split_ifs with h1 h2 <;> simp_all

/-- C7: over the reachable states (any forecastData and capacityData), the
"Week 4" capacity row always exists, each of the two alert conditions fires
exactly one toast with no de-duplication (the number of fired toasts is the
sum of the two condition indicators), and some toast fires iff the Week 4 row
has status "Shortage" or the last cpu forecast entry exceeds 80. -/
theorem C7_high_risk_alerts (fd : Option (List ℚ)) (cd : Option CapacityResponse) :
    ((capacityRowsOf cd fd).find? (fun r => r.date == "Week 4")).isSome = true ∧
      (highRiskAlerts (capacityRowsOf cd fd) (metricsOf fd)).length =
        ((if ((capacityRowsOf cd fd).find? (fun r => r.date == "Week 4")).any
              (fun r => r.status == "Shortage") then 1 else 0) +
          (if (cpuLastOf (metricsOf fd)).any (fun v => decide (80 < v)) then 1
            else 0)) ∧
      (highRiskAlerts (capacityRowsOf cd fd) (metricsOf fd) ≠ [] ↔
        (((capacityRowsOf cd fd).find? (fun r => r.date == "Week 4")).any
            (fun r => r.status == "Shortage") = true ∨
          (cpuLastOf (metricsOf fd)).any (fun v => decide (80 < v)) = true)) := by
  refine ⟨?_, highRiskAlerts_length _ _, highRiskAlerts_ne_nil_iff _ _⟩
  match cd, fd with
  | some c, some f => rfl
  | some c, none => rfl
  | none, some f => rfl
  | none, none => rfl

/-- Shape of the 7-day forecast fetch response (Forecasts.jsx line 73):
`predictions || predictions_cpu || []`, where only a missing field falls
through (an empty array is truthy in JS). -/
structure ForecastResponse where
  predictions : Option (List ℚ)
  predictions_cpu : Option (List ℚ)
deriving DecidableEq

/-- The component state set by `load` (Forecasts.jsx lines 62-85). -/
structure LoadState where
  forecastData : Option (List ℚ)
  capacityData : Option CapacityResponse
  error : Option String
  isLoading : Bool
deriving DecidableEq

/-- Forecasts.jsx lines 67-85, the `load` effect as a function of the two
fetch outcomes: a failure of either fetch is caught, records the message and
resets forecastData to `Array(7).fill(0)` (overwriting any predictions
already stored when the second fetch fails); `finally` clears isLoading. -/
def loadForecastView (forecastResult : Except String ForecastResponse)
    (capacityResult : Except String CapacityResponse) : LoadState :=
  match forecastResult with
  | Except.error e =>
    { forecastData := some (List.replicate 7 0), capacityData := none,
      error := some e, isLoading := false }
  | Except.ok fr =>
    let predictions := ((fr.predictions).orElse (fun _ => fr.predictions_cpu)).getD []
    match capacityResult with
    | Except.error e =>
      { forecastData := some (List.replicate 7 0), capacityData := none,
        error := some e, isLoading := false }
    | Except.ok cr =>
      { forecastData := some predictions, capacityData := some cr,
        error := none, isLoading := false }

/-- One region snapshot of the multi-region fetch (spec section 6). -/
structure RegionSnapshot where
  name : String
  cpuUsage : ℚ
  storageUsage : ℚ
  forecast : List ℚ
  peakHours : List String
  recommendation : String
deriving DecidableEq

/-- Shape of the multi-region fetch response (`response.regions || []`). -/
structure MultiRegionResponse where
  regions : Option (List RegionSnapshot)
deriving DecidableEq

/-- The component state set by `loadMultiRegionData`. -/
structure MRState where
  allRegions : List RegionSnapshot
  error : Option String
  isLoading : Bool
deriving DecidableEq

/-- MultiRegionDashboard lines 557-581, `loadMultiRegionData` as a function of
the fetch outcome: a failure is caught, records the message and falls back to
the empty region list. -/
def loadMultiRegionData (result : Except String MultiRegionResponse) : MRState :=
  match result with
  | Except.error e => { allRegions := [], error := some e, isLoading := false }
  | Except.ok r =>
    { allRegions := (r.regions).getD [], error := none, isLoading := false }

/-- C8: every fetch failure is caught locally (both loaders are total
functions of the fetch outcome), surfaces the error string, and falls back to
placeholder data: the forecast view stores a 7-element all-zero forecast
array — also when only the second (capacity) fetch fails — and the
multi-region view stores the empty region list. -/
theorem C8_fetch_failure_fallback :
    (∀ (e : String) (cr : Except String CapacityResponse),
      loadForecastView (Except.error e) cr =
        { forecastData := some (List.replicate 7 0), capacityData := none,
          error := some e, isLoading := false }) ∧
      (∀ (fr : ForecastResponse) (e : String),
        loadForecastView (Except.ok fr) (Except.error e) =
          { forecastData := some (List.replicate 7 0), capacityData := none,
            error := some e, isLoading := false }) ∧
      (∀ (fr : ForecastResponse) (cr : CapacityResponse),
        (loadForecastView (Except.ok fr) (Except.ok cr)).error = none) ∧
      (∀ (e : String),
        loadMultiRegionData (Except.error e) =
          { allRegions := [], error := some e, isLoading := false }) :=
  ⟨fun _ _ => rfl, fun _ _ => rfl, fun _ _ => rfl, fun _ => rfl⟩

/-- One notification entry (Header.jsx; spec section 6 alerts shape). -/
structure AlertEntry where
  type : String
  message : String
  severity : String
deriving DecidableEq

/-- Shape of the alerts fetch response; `none` models an `alerts` field that
is not an array, which the code replaces with `[]`. -/
structure AlertsResponse where
  alerts : Option (List AlertEntry)
deriving DecidableEq

/-- Header.jsx lines 18-38, `handleBellClick` as a function of the previous
popover state, the previous notifications and the fetch outcome: the fetch
only runs when the popover is being opened; a failure installs the single
low-severity system entry. -/
def handleBellClick (showNotifications : Bool)
    (notifications : List AlertEntry)
    (fetchResult : Except String AlertsResponse) : Bool × List AlertEntry :=
  let next := !showNotifications
  if next then
    match fetchResult with
    | Except.ok d => (next, (d.alerts).getD [])
    | Except.error _ =>
      (next, [{ type := "system",
                message := "Notifications unavailable. Backend not responding.",
                severity := "low" }])
  else (next, notifications)

/-- C10: opening the bell with a failing alerts fetch yields exactly one
system notification of severity "low" saying the backend is not responding;
opening it with a successful fetch yields the response alerts array when it
is one, and the empty list when the field is not an array — in every case a
well-formed list. -/
theorem C10_bell_notifications :
    (∀ (e : String) (ns : List AlertEntry),
      (handleBellClick false ns (Except.error e)).2 =
        [{ type := "system",
           message := "Notifications unavailable. Backend not responding.",
           severity := "low" }] ∧
        (handleBellClick false ns (Except.error e)).2.map (fun a => a.severity) =
          ["low"] ∧
        (handleBellClick false ns (Except.error e)).2.length = 1) ∧
      (∀ (d : AlertsResponse) (ns : List AlertEntry),
        (handleBellClick false ns (Except.ok d)).2 = (d.alerts).getD []) ∧
      (∀ (l : List AlertEntry) (ns : List AlertEntry),
        (handleBellClick false ns
          (Except.ok (AlertsResponse.mk (some l)))).2 = l) ∧
      (∀ (ns : List AlertEntry),
        (handleBellClick false ns (Except.ok (AlertsResponse.mk none))).2 = []) :=
  ⟨fun _ _ => ⟨rfl, rfl, rfl⟩, fun _ _ => rfl, fun _ _ => rfl, fun _ => rfl⟩
